import Mathlib

/-!
Verification of the guv cooperative-concurrency core: listener registry,
hub greenlet management (`guv/hubs/abc.py`), the trampoline and gyield
primitives (`guv/hubs/trampoline.py`), and handle closing
(`pyuv_cffi/__init__.py`), shallowly embedded in Lean.
-/

namespace Guv

/-- Event types: the constants `READ` and `WRITE` from `guv.const`
(`AbstractListener.__init__` asserts `evtype in [READ, WRITE]`). -/
inductive Evtype where
  | read
  | write
deriving DecidableEq, Repr

/-- A listener as created by `AbstractListener.__init__` (abc.py lines 22-31):
an event type, a file descriptor, and the greenlet that owns it
(`greenlet.getcurrent()` at construction time, identified here by a number). -/
structure Listener where
  evtype : Evtype
  fd : Nat
  gid : Nat
deriving DecidableEq, Repr

/-- One bucket of the two-level registry `self.listeners[evtype]`: a Python
dict from fd to a listener.  Python dicts preserve insertion order and may
hold `None` as a value (as `_remove_listener` transiently does), so the value
type is `Option Listener` and the dict is an ordered association list. -/
abbrev Bucket := List (Nat × Option Listener)

/-- Key lookup in a bucket; `none` means the key is absent (Python `fd in
bucket` is false), `some v` means the key is present with value `v`. -/
def lookupFd : Bucket → Nat → Option (Option Listener)
  | [], _ => none
  | (k, v) :: rest, fd => if k = fd then some v else lookupFd rest fd

/-- Python `bucket[fd] = v`: update in place if the key exists (keeping dict
order), otherwise append at the end. -/
def dictSet (b : Bucket) (fd : Nat) (v : Option Listener) : Bucket :=
  match b with
  | [] => [(fd, v)]
  | (k, w) :: rest =>
    if k = fd then (k, v) :: rest else (k, w) :: dictSet rest fd v

/-- Python `del bucket[fd]`: drop the entry for the key.  (`_remove_listener`
only deletes a key it has just assigned, so the key is always present; dict
keys are unique, so dropping every occurrence is the same deletion.) -/
def dictDel : Bucket → Nat → Bucket
  | [], _ => []
  | (k, v) :: rest, fd =>
    if k = fd then dictDel rest fd else (k, v) :: dictDel rest fd

/-- The listener registry `self.listeners = {READ: {}, WRITE: {}}`
(abc.py line 41). -/
structure Registry where
  read : Bucket
  write : Bucket
deriving DecidableEq, Repr

/-- Python `self.listeners[evtype]`. -/
def Registry.bucket (r : Registry) : Evtype → Bucket
  | .read => r.read
  | .write => r.write

/-- Replace one bucket of the registry. -/
def Registry.setBucket (r : Registry) : Evtype → Bucket → Registry
  | .read, b => { r with read := b }
  | .write, b => { r with write := b }

/-- Method `AbstractHub._add_listener` (abc.py lines 127-141): raise `RuntimeError`
if the fd is already a key of the bucket for this evtype, else store the
listener under that key. -/
def addListener (r : Registry) (l : Listener) : Except String Registry :=
  let bucket := r.bucket l.evtype
  if (lookupFd bucket l.fd).isSome then
    Except.error "Multiple listeners of this evtype on this fd not supported"
  else
    Except.ok (r.setBucket l.evtype (dictSet bucket l.fd (some l)))

/-- The registry state after a `_add_listener` call, including the raising
case: a Python `raise` leaves `self.listeners` unmutated, so on error the
registry is unchanged. -/
def addListenerState (r : Registry) (l : Listener) : Registry :=
  match addListener r l with
  | Except.ok r' => r'
  | Except.error _ => r

/-- Method `AbstractHub._remove_listener` (abc.py lines 143-150):
`self.listeners[listener.evtype][listener.fd] = None` followed by
`del self.listeners[listener.evtype][listener.fd]`. -/
def removeListener (r : Registry) (l : Listener) : Registry :=
  let b := r.bucket l.evtype
  let b := dictSet b l.fd none
  let b := dictDel b l.fd
  r.setBucket l.evtype b

/-- Exceptions relevant to the embedded fragment.  `guvTimeout` stands for
`guv.timeout.Timeout`.  Modelled from the spec: `guv/timeout.py` is not under
src; the spec's error taxonomy lists "Timeout: the default exception injected
by Timeout and by trampoline on expiry" as its own class, distinct from the
builtin `TimeoutError` (`builtinTimeoutError` here). -/
inductive Exc where
  | guvTimeout
  | builtinTimeoutError
  | runtimeError (msg : String)
  | other (n : Nat)
deriving DecidableEq, Repr

/-- A global timer as returned by `hub.schedule_call_global(timeout, _timeout,
timeout_exc)` in `trampoline` (trampoline.py line 42): it carries the
exception that its callback `_timeout` will `current.throw` on expiry, and a
cancellation flag set by `timer.cancel()`. -/
structure Timer where
  id : Nat
  exc : Exc
  cancelled : Bool
deriving DecidableEq, Repr

/-- What a timer injects when it fires: nothing if cancelled, otherwise its
exception (the body of `_timeout` in trampoline.py lines 38-40 throws the
`exc` it was scheduled with into the waiting greenlet). -/
def timerFire (t : Timer) : Option Exc :=
  if t.cancelled then none else some t.exc

/-- Hub-side mutable state touched by the embedded operations: the listener
registry, the set of scheduled global timers (fresh timers take id
`nextTimerId`), and the immediate-dispatch FIFO used by
`schedule_call_now` (callbacks identified by the greenlet they resume). -/
structure HubState where
  registry : Registry
  timers : List Timer
  nextTimerId : Nat
  immediateQueue : List Nat
deriving DecidableEq, Repr

/-- Python `timer.cancel()`: mark the timer with this id as cancelled. -/
def cancelTimer (ts : List Timer) (tid : Nat) : List Timer :=
  ts.map fun t => if t.id = tid then { t with cancelled := true } else t

/-- Python `hub.schedule_call_global(seconds, _timeout, timeout_exc)`: arm a fresh
timer carrying the exception to inject, return its id and the new state. -/
def scheduleCallGlobal (st : HubState) (exc : Exc) : Nat × HubState :=
  (st.nextTimerId,
   { st with timers := st.timers ++ [⟨st.nextTimerId, exc, false⟩],
             nextTimerId := st.nextTimerId + 1 })

/-- How a `trampoline` call completes after `hub.switch()`: either the hub
resumed it normally on fd readiness (`ret`, carrying the switch value), or an
exception was thrown into the waiting greenlet (`threw`) — by the timeout
timer's `current.throw(exc)`, or by the listener's throwback, or by `kill`. -/
inductive SwitchOutcome where
  | ret (v : Nat)
  | threw (e : Exc)
deriving DecidableEq, Repr

/-- The default of trampoline's `timeout_exc` parameter (trampoline.py line
7): the class `Timeout` imported from `guv.timeout`. -/
def trampolineDefaultTimeoutExc : Exc := Exc.guvTimeout

/-- What `return hub.switch()` produces for the trampoline caller: the
switch value on normal resume, or the propagated exception when one was
thrown into the waiting greenlet. -/
def switchResult : SwitchOutcome → Except Exc Nat
  | .ret v => Except.ok v
  | .threw e => Except.error e

/-- The `try`/`finally` body of `trampoline` (trampoline.py lines 44-56),
after the timer (if any, identified by `timer`) has been scheduled:
`listener = hub.add(evtype, fd, current.switch, current.throw)` — on error
the exception propagates and only the outer `finally` (cancel the timer)
runs; on success `hub.switch()` completes with `outcome`, the inner
`finally` removes the listener, and the outer `finally` cancels the timer. -/
def trampolineCore (st1 : HubState) (gid fd : Nat) (evtype : Evtype)
    (timer : Option Nat) (outcome : SwitchOutcome) :
    Except Exc Nat × HubState :=
  let cancelFinally : HubState → HubState := fun s =>
    match timer with
    | none => s
    | some tid => { s with timers := cancelTimer s.timers tid }
  match addListener st1.registry ⟨evtype, fd, gid⟩ with
  | Except.error msg =>
    (Except.error (Exc.runtimeError msg), cancelFinally st1)
  | Except.ok reg =>
    (switchResult outcome,
     cancelFinally { st1 with registry := removeListener reg ⟨evtype, fd, gid⟩ })

/-- Function `trampoline(fd, evtype, timeout, timeout_exc)` (trampoline.py lines
7-56), for the calling greenlet `gid` and with the result of `hub.switch()`
given by `outcome`: if `timeout` is not None, first schedule a global timer
throwing `timeout_exc` (lines 36-42), then run the `try`/`finally` body. -/
def trampoline (st : HubState) (gid fd : Nat) (evtype : Evtype)
    (timeout : Option Nat) (timeout_exc : Exc) (outcome : SwitchOutcome) :
    Except Exc Nat × HubState :=
  match timeout with
  | none => trampolineCore st gid fd evtype none outcome
  | some _ =>
    let tst := scheduleCallGlobal st timeout_exc
    trampolineCore tst.2 gid fd evtype (some tst.1) outcome

/-- A `trampoline(fd, evtype, timeout)` call with `timeout_exc` left
unspecified: the default `Timeout` from line 7 is used. -/
def trampolineDefault (st : HubState) (gid fd : Nat) (evtype : Evtype)
    (timeout : Option Nat) (outcome : SwitchOutcome) :
    Except Exc Nat × HubState :=
  trampoline st gid fd evtype timeout trampolineDefaultTimeoutExc outcome

/-- The greenlet graph: greenlets are identified by numbers below `nextId`
(`nextId` is the next fresh id), each has an optional parent and a dead
flag. -/
structure GreenletWorld where
  parent : Nat → Option Nat
  dead : Nat → Bool
  nextId : Nat

/-- The hub object's `self.greenlet` attribute (abc.py line 42). -/
structure Hub where
  greenlet : Nat

/-- Method `AbstractHub.ensure_greenlet` (abc.py lines 98-107): if `self.greenlet`
is dead, create `new = greenlet.greenlet(self.run, self.greenlet.parent)` (a
live greenlet sharing the dead one's parent), set the dead greenlet's parent
to `new`, and assign `self.greenlet = new`; otherwise do nothing. -/
def ensureGreenlet (w : GreenletWorld) (hub : Hub) : GreenletWorld × Hub :=
  if w.dead hub.greenlet then
    let newId := w.nextId
    let oldParent := w.parent hub.greenlet
    ({ parent := fun g =>
         if g = newId then oldParent
         else if g = hub.greenlet then some newId
         else w.parent g,
       dead := fun g => if g = newId then false else w.dead g,
       nextId := w.nextId + 1 },
     { greenlet := newId })
  else (w, hub)

/-- The chain of ancestors of `g` (including `g`), followed through `parent`
with enough fuel to exhaust any acyclic chain. -/
def ancestorChain (w : GreenletWorld) : Nat → Nat → List Nat
  | 0, _ => []
  | fuel + 1, g =>
    g :: (match w.parent g with
          | none => []
          | some p => ancestorChain w fuel p)

/-- The greenlet library raises `ValueError` on `cur.parent = g` exactly when
that assignment would create a parent cycle, i.e. when `cur` already appears
in `g`'s ancestor chain. -/
def wouldCycle (w : GreenletWorld) (cur g : Nat) : Bool :=
  cur ∈ ancestorChain w w.nextId g

/-- Python `cur.parent = g` when it succeeds: a pointwise parent update. -/
def setParent (w : GreenletWorld) (cur g : Nat) : GreenletWorld :=
  { w with parent := fun x => if x = cur then some g else w.parent x }

/-- Method `AbstractHub.switch` (abc.py lines 109-120), for current greenlet `cur`:
`assert cur is not self.greenlet` (an `AssertionError` if the hub greenlet
calls switch); `ensure_greenlet()`; then `try: if self.greenlet.parent is not
cur: cur.parent = self.greenlet` with `ValueError` (parent cycle) swallowed;
finally `self.greenlet.switch()`.  Returns the post-call world and hub, or
the assertion error. -/
def hubSwitch (w : GreenletWorld) (hub : Hub) (cur : Nat) :
    Except String (GreenletWorld × Hub) :=
  if cur = hub.greenlet then
    Except.error "Cannot switch to the hub from the hub"
  else
    let p := ensureGreenlet w hub
    let w2 :=
      if p.1.parent p.2.greenlet = some cur then p.1
      else if wouldCycle p.1 cur p.2.greenlet then p.1
      else setParent p.1 cur p.2.greenlet
    Except.ok (w2, p.2)

/-- Modelled from the spec: `schedule_call_now(cb)` is declared in §4.1 but
its implementation is not under src; per the spec it schedules `cb` for
dispatch on the next loop iteration, FIFO among items scheduled for that
iteration — an append to the immediate-dispatch queue. -/
def scheduleCallNow (st : HubState) (cb : Nat) : HubState :=
  { st with immediateQueue := st.immediateQueue ++ [cb] }

/-- Function `gyield()` (trampoline.py lines 59-68), for current greenlet `cur`:
`hub.schedule_call_now(current.switch)` then `hub.switch()`. -/
def gyield (w : GreenletWorld) (hub : Hub) (st : HubState) (cur : Nat) :
    HubState × Except String (GreenletWorld × Hub) :=
  (scheduleCallNow st cur, hubSwitch w hub cur)

/-- A `pyuv_cffi.Handle` as far as `close` touches it
(pyuv_cffi/__init__.py lines 74-134): the `_close_called` flag, whether a
`_ffi_close_cb` callback is currently installed, and a count of
`libuv.uv_close` calls issued on this handle. -/
structure Handle where
  close_called : Bool
  ffi_close_cb_installed : Bool
  uvCloseCalls : Nat
deriving DecidableEq, Repr

/-- Constructor `Handle.__init__` state (lines 79-82): no callbacks installed, close not
called. -/
def Handle.fresh : Handle :=
  { close_called := false, ffi_close_cb_installed := false, uvCloseCalls := 0 }

/-- Method `Handle.close` (lines 115-134): if `_close_called`, return immediately;
otherwise install the close callback wrapper, issue `libuv.uv_close`, and set
`_close_called = True`. -/
def Handle.close (h : Handle) : Handle :=
  if h.close_called then h
  else { h with ffi_close_cb_installed := true,
                uvCloseCalls := h.uvCloseCalls + 1,
                close_called := true }

/-! ### Dictionary and registry lemmas -/

theorem lookupFd_dictSet_self (b : Bucket) (fd : Nat) (v : Option Listener) :
    lookupFd (dictSet b fd v) fd = some v := by
  induction b with
  | nil => simp [dictSet, lookupFd]
  | cons kv rest ih =>
    obtain ⟨k, w⟩ := kv
    by_cases h : k = fd
    · simp [dictSet, h, lookupFd]
    · simp [dictSet, h, lookupFd, ih]

theorem lookupFd_dictSet_ne (b : Bucket) (fd fd' : Nat) (v : Option Listener)
    (h : fd' ≠ fd) : lookupFd (dictSet b fd v) fd' = lookupFd b fd' := by
  induction b with
  | nil => simp [dictSet, lookupFd, Ne.symm h]
  | cons kv rest ih =>
    obtain ⟨k, w⟩ := kv
    by_cases hk : k = fd
    · subst hk
      simp [dictSet, lookupFd, Ne.symm h]
    · simp [dictSet, hk, lookupFd, ih]

theorem lookupFd_dictDel_self (b : Bucket) (fd : Nat) :
    lookupFd (dictDel b fd) fd = none := by
  induction b with
  | nil => rfl
  | cons kv rest ih =>
    obtain ⟨k, w⟩ := kv
    by_cases h : k = fd
    · simp [dictDel, h, ih]
    · simp [dictDel, h, lookupFd, ih]

theorem lookupFd_dictDel_ne (b : Bucket) (fd fd' : Nat) (h : fd' ≠ fd) :
    lookupFd (dictDel b fd) fd' = lookupFd b fd' := by
  induction b with
  | nil => rfl
  | cons kv rest ih =>
    obtain ⟨k, w⟩ := kv
    by_cases hk : k = fd
    · subst hk
      simp [dictDel, lookupFd, Ne.symm h, ih]
    · simp [dictDel, hk, lookupFd, ih]

theorem bucket_setBucket_self (r : Registry) (e : Evtype) (b : Bucket) :
    (r.setBucket e b).bucket e = b := by
  cases e <;> rfl

theorem bucket_setBucket_ne (r : Registry) (e e' : Evtype) (b : Bucket)
    (h : e' ≠ e) : (r.setBucket e b).bucket e' = r.bucket e' := by
  cases e <;> cases e' <;> first | rfl | exact absurd rfl h

theorem lookupFd_removeListener_self (r : Registry) (l : Listener) :
    lookupFd ((removeListener r l).bucket l.evtype) l.fd = none := by
  unfold removeListener
  rw [bucket_setBucket_self]
  exact lookupFd_dictDel_self _ _

theorem lookupFd_removeListener_other (r : Registry) (l : Listener)
    (e : Evtype) (fd : Nat) (h : ¬(e = l.evtype ∧ fd = l.fd)) :
    lookupFd ((removeListener r l).bucket e) fd = lookupFd (r.bucket e) fd := by
  by_cases he : e = l.evtype
  · subst he
    have hfd : fd ≠ l.fd := fun hf => h ⟨rfl, hf⟩
    unfold removeListener
    rw [bucket_setBucket_self, lookupFd_dictDel_ne _ _ _ hfd,
        lookupFd_dictSet_ne _ _ _ _ hfd]
  · unfold removeListener
    rw [bucket_setBucket_ne _ _ _ _ he]

/-! ### Timer lemmas -/

theorem mem_cancelTimer (ts : List Timer) (tid : Nat) (t : Timer)
    (ht : t ∈ cancelTimer ts tid) :
    t.cancelled = true ∨ (t ∈ ts ∧ t.id ≠ tid) := by
  unfold cancelTimer at ht
  obtain ⟨t0, ht0, heq⟩ := List.mem_map.mp ht
  by_cases h : t0.id = tid
  · left
    rw [if_pos h] at heq
    rw [← heq]
  · right
    rw [if_neg h] at heq
    exact ⟨heq ▸ ht0, heq ▸ h⟩

/-! ### Structural lemmas about the trampoline body -/

theorem trampolineCore_timers (st1 : HubState) (gid fd : Nat) (e : Evtype)
    (timer : Option Nat) (outcome : SwitchOutcome) :
    (trampolineCore st1 gid fd e timer outcome).2.timers =
      match timer with
      | none => st1.timers
      | some tid => cancelTimer st1.timers tid := by
  unfold trampolineCore
  cases addListener st1.registry ⟨e, fd, gid⟩ <;> cases timer <;> rfl

theorem trampolineCore_registry (st1 : HubState) (gid fd : Nat) (e : Evtype)
    (timer : Option Nat) (outcome : SwitchOutcome) :
    (trampolineCore st1 gid fd e timer outcome).2.registry =
      match addListener st1.registry ⟨e, fd, gid⟩ with
      | Except.error _ => st1.registry
      | Except.ok reg => removeListener reg ⟨e, fd, gid⟩ := by
  unfold trampolineCore
  cases addListener st1.registry ⟨e, fd, gid⟩ <;> cases timer <;> rfl

theorem trampolineCore_result (st1 : HubState) (gid fd : Nat) (e : Evtype)
    (timer : Option Nat) (outcome : SwitchOutcome) :
    (trampolineCore st1 gid fd e timer outcome).1 =
      match addListener st1.registry ⟨e, fd, gid⟩ with
      | Except.error msg => Except.error (Exc.runtimeError msg)
      | Except.ok _ => switchResult outcome := by
  unfold trampolineCore
  cases addListener st1.registry ⟨e, fd, gid⟩ <;> cases timer <;> rfl

theorem trampoline_none (st : HubState) (gid fd : Nat) (e : Evtype)
    (texc : Exc) (outcome : SwitchOutcome) :
    trampoline st gid fd e none texc outcome =
      trampolineCore st gid fd e none outcome := rfl

theorem trampoline_some (st : HubState) (gid fd : Nat) (e : Evtype) (s : Nat)
    (texc : Exc) (outcome : SwitchOutcome) :
    trampoline st gid fd e (some s) texc outcome =
      trampolineCore (scheduleCallGlobal st texc).2 gid fd e
        (some (scheduleCallGlobal st texc).1) outcome := rfl

theorem scheduleCallGlobal_registry (st : HubState) (exc : Exc) :
    (scheduleCallGlobal st exc).2.registry = st.registry := rfl

theorem scheduleCallGlobal_timers (st : HubState) (exc : Exc) :
    (scheduleCallGlobal st exc).2.timers =
      st.timers ++ [⟨st.nextTimerId, exc, false⟩] := rfl

theorem scheduleCallGlobal_fst (st : HubState) (exc : Exc) :
    (scheduleCallGlobal st exc).1 = st.nextTimerId := rfl

/-! ### Claims -/

/-- C1: if the listener registry already holds a listener for (evtype, fd),
then `_add_listener` for another listener on that same pair raises
synchronously (a `RuntimeError`), and the registry afterwards still holds
exactly the first listener for that pair, unchanged. -/
theorem c1_duplicate_add_rejected (r : Registry) (e : Evtype) (fd : Nat)
    (l0 l' : Listener) (h0 : lookupFd (r.bucket e) fd = some (some l0))
    (he : l'.evtype = e) (hf : l'.fd = fd) :
    (∃ msg, addListener r l' = Except.error msg) ∧
    addListenerState r l' = r ∧
    lookupFd ((addListenerState r l').bucket e) fd = some (some l0) := by
  have herr : addListener r l' =
      Except.error "Multiple listeners of this evtype on this fd not supported" := by
    simp [addListener, he, hf, h0]
  refine ⟨⟨_, herr⟩, ?_, ?_⟩
  · unfold addListenerState
    rw [herr]
  · unfold addListenerState
    rw [herr]
    exact h0

def rC1 : Registry := ⟨[(5, some ⟨Evtype.read, 5, 1⟩)], []⟩

def lC1 : Listener := ⟨Evtype.read, 5, 1⟩

def lC1b : Listener := ⟨Evtype.read, 5, 2⟩

/-- Witness for C1 at a one-entry registry. -/
theorem c1_witness :
    lookupFd (rC1.bucket Evtype.read) 5 = some (some lC1) ∧
    ((∃ msg, addListener rC1 lC1b = Except.error msg) ∧
     addListenerState rC1 lC1b = rC1 ∧
     lookupFd ((addListenerState rC1 lC1b).bucket Evtype.read) 5 = some (some lC1)) :=
  ⟨by decide, c1_duplicate_add_rejected rC1 Evtype.read 5 lC1 lC1b (by decide) rfl rfl⟩

/-- C8: calling `_remove_listener` twice in succession on the same listener
does not corrupt the registry: afterwards there is no entry for
(l.evtype, l.fd), and the entry of every other (evtype, fd) pair is exactly
as it was before the two removals. -/
theorem c8_double_remove (r : Registry) (l : Listener) :
    lookupFd ((removeListener (removeListener r l) l).bucket l.evtype) l.fd = none ∧
    ∀ e fd, ¬(e = l.evtype ∧ fd = l.fd) →
      lookupFd ((removeListener (removeListener r l) l).bucket e) fd =
        lookupFd (r.bucket e) fd := by
  refine ⟨lookupFd_removeListener_self _ _, ?_⟩
  intro e fd h
  rw [lookupFd_removeListener_other _ _ _ _ h, lookupFd_removeListener_other _ _ _ _ h]

def rC8 : Registry :=
  ⟨[(1, some ⟨Evtype.read, 1, 7⟩), (2, some ⟨Evtype.read, 2, 8⟩)],
   [(1, some ⟨Evtype.write, 1, 9⟩)]⟩

def lC8 : Listener := ⟨Evtype.read, 1, 7⟩

/-- Witness for C8 at a three-entry registry. -/
theorem c8_witness :
    lookupFd ((removeListener (removeListener rC8 lC8) lC8).bucket Evtype.read) 1 = none ∧
    lookupFd ((removeListener (removeListener rC8 lC8) lC8).bucket Evtype.read) 2 =
      lookupFd (rC8.bucket Evtype.read) 2 ∧
    lookupFd ((removeListener (removeListener rC8 lC8) lC8).bucket Evtype.write) 1 =
      lookupFd (rC8.bucket Evtype.write) 1 :=
  ⟨(c8_double_remove rC8 lC8).1,
   (c8_double_remove rC8 lC8).2 Evtype.read 2 (by decide),
   (c8_double_remove rC8 lC8).2 Evtype.write 1 (by decide)⟩

/-- C9: `Handle.close` is idempotent: on a handle with `_close_called`
unset, the first call marks it close-called, installs the close callback and
issues exactly one `uv_close`; any later call returns with the handle state
entirely unchanged. -/
theorem c9_close_idempotent (h0 : Handle) :
    (Handle.close (Handle.close h0) = Handle.close h0) ∧
    (h0.close_called = false →
      (Handle.close h0).close_called = true ∧
      (Handle.close h0).uvCloseCalls = h0.uvCloseCalls + 1 ∧
      (Handle.close h0).ffi_close_cb_installed = true) ∧
    (h0.close_called = true → Handle.close h0 = h0) := by
  by_cases hc : h0.close_called = true
  · simp [Handle.close, hc]
  · have hc' : h0.close_called = false := by simpa using hc
    simp [Handle.close, hc']

/-- Witness for C9 at a freshly initialized handle. -/
theorem c9_witness :
    Handle.fresh.close_called = false ∧
    Handle.close (Handle.close Handle.fresh) = Handle.close Handle.fresh ∧
    ((Handle.close Handle.fresh).close_called = true ∧
     (Handle.close Handle.fresh).uvCloseCalls = Handle.fresh.uvCloseCalls + 1 ∧
     (Handle.close Handle.fresh).ffi_close_cb_installed = true) :=
  ⟨rfl, (c9_close_idempotent Handle.fresh).1, (c9_close_idempotent Handle.fresh).2.1 rfl⟩

/-- A state well-formedness fact used below: every scheduled timer's id is
below the next fresh id. -/
abbrev TimersWF (st : HubState) : Prop :=
  ∀ t ∈ st.timers, t.id < st.nextTimerId

/-- C2: every `trampoline` call whose listener registration succeeded
completes — returning the switch value normally, or raising the thrown
(e.g. timeout) exception — with the listener for (evtype, fd) removed from
the registry and any timer the call scheduled cancelled. -/
theorem c2_trampoline_cleanup (st : HubState) (gid fd : Nat) (e : Evtype)
    (timeout : Option Nat) (texc : Exc) (outcome : SwitchOutcome)
    (hreg : lookupFd (st.registry.bucket e) fd = none)
    (hwf : TimersWF st) :
    (trampoline st gid fd e timeout texc outcome).1 = switchResult outcome ∧
    lookupFd ((trampoline st gid fd e timeout texc outcome).2.registry.bucket e) fd = none ∧
    ∀ t ∈ (trampoline st gid fd e timeout texc outcome).2.timers,
      st.nextTimerId ≤ t.id → t.cancelled = true := by
  have hadd : addListener st.registry ⟨e, fd, gid⟩ =
      Except.ok (st.registry.setBucket e
        (dictSet (st.registry.bucket e) fd (some ⟨e, fd, gid⟩))) := by
    simp [addListener, hreg]
  cases timeout with
  | none =>
    refine ⟨?_, ?_, ?_⟩
    · rw [trampoline_none, trampolineCore_result, hadd]
    · rw [trampoline_none, trampolineCore_registry, hadd]
      exact lookupFd_removeListener_self _ ⟨e, fd, gid⟩
    · rw [trampoline_none, trampolineCore_timers]
      intro t ht hle
      exact absurd hle (Nat.not_le.mpr (hwf t ht))
  | some s =>
    refine ⟨?_, ?_, ?_⟩
    · rw [trampoline_some, trampolineCore_result, scheduleCallGlobal_registry, hadd]
    · rw [trampoline_some, trampolineCore_registry, scheduleCallGlobal_registry, hadd]
      exact lookupFd_removeListener_self _ ⟨e, fd, gid⟩
    · rw [trampoline_some, trampolineCore_timers]
      intro t ht hle
      rcases mem_cancelTimer _ _ t ht with hcan | ⟨hmem, hne⟩
      · exact hcan
      · rcases List.mem_append.mp hmem with hmem1 | hmem2
        · exact absurd hle (Nat.not_le.mpr (hwf t hmem1))
        · have heq : t = ⟨st.nextTimerId, texc, false⟩ := List.mem_singleton.mp hmem2
          exact absurd (by rw [heq]; rfl) hne

def stEmpty : HubState := ⟨⟨[], []⟩, [], 0, []⟩

/-- Witness for C2: a timed trampoline on an empty hub state, woken by a
thrown timeout exception. -/
theorem c2_witness :
    lookupFd (stEmpty.registry.bucket Evtype.read) 5 = none ∧
    TimersWF stEmpty ∧
    ((trampoline stEmpty 1 5 Evtype.read (some 2) Exc.guvTimeout
        (SwitchOutcome.threw Exc.guvTimeout)).1 =
      switchResult (SwitchOutcome.threw Exc.guvTimeout) ∧
     lookupFd ((trampoline stEmpty 1 5 Evtype.read (some 2) Exc.guvTimeout
        (SwitchOutcome.threw Exc.guvTimeout)).2.registry.bucket Evtype.read) 5 = none ∧
     ∀ t ∈ (trampoline stEmpty 1 5 Evtype.read (some 2) Exc.guvTimeout
        (SwitchOutcome.threw Exc.guvTimeout)).2.timers,
       stEmpty.nextTimerId ≤ t.id → t.cancelled = true) :=
  ⟨by decide, by decide,
   c2_trampoline_cleanup stEmpty 1 5 Evtype.read (some 2) Exc.guvTimeout
     (SwitchOutcome.threw Exc.guvTimeout) (by decide) (by decide)⟩

/-- C3: when `hub.add` inside `trampoline` raises the duplicate-listener
error, the error propagates to the trampoline caller, the registry is
unchanged (no new listener), and any timer the call scheduled is
cancelled. -/
theorem c3_trampoline_duplicate (st : HubState) (gid fd : Nat) (e : Evtype)
    (timeout : Option Nat) (texc : Exc) (outcome : SwitchOutcome)
    (hdup : (lookupFd (st.registry.bucket e) fd).isSome = true)
    (hwf : TimersWF st) :
    (∃ msg, (trampoline st gid fd e timeout texc outcome).1 =
      Except.error (Exc.runtimeError msg)) ∧
    (trampoline st gid fd e timeout texc outcome).2.registry = st.registry ∧
    ∀ t ∈ (trampoline st gid fd e timeout texc outcome).2.timers,
      st.nextTimerId ≤ t.id → t.cancelled = true := by
  have hadd : addListener st.registry ⟨e, fd, gid⟩ =
      Except.error "Multiple listeners of this evtype on this fd not supported" := by
    simp [addListener, hdup]
  cases timeout with
  | none =>
    refine ⟨?_, ?_, ?_⟩
    · rw [trampoline_none, trampolineCore_result, hadd]
      exact ⟨_, rfl⟩
    · rw [trampoline_none, trampolineCore_registry, hadd]
    · rw [trampoline_none, trampolineCore_timers]
      intro t ht hle
      exact absurd hle (Nat.not_le.mpr (hwf t ht))
  | some s =>
    refine ⟨?_, ?_, ?_⟩
    · rw [trampoline_some, trampolineCore_result, scheduleCallGlobal_registry, hadd]
      exact ⟨_, rfl⟩
    · rw [trampoline_some, trampolineCore_registry, scheduleCallGlobal_registry, hadd]
    · rw [trampoline_some, trampolineCore_timers]
      intro t ht hle
      rcases mem_cancelTimer _ _ t ht with hcan | ⟨hmem, hne⟩
      · exact hcan
      · rcases List.mem_append.mp hmem with hmem1 | hmem2
        · exact absurd hle (Nat.not_le.mpr (hwf t hmem1))
        · have heq : t = ⟨st.nextTimerId, texc, false⟩ := List.mem_singleton.mp hmem2
          exact absurd (by rw [heq]; rfl) hne

def stDup : HubState := ⟨⟨[(5, some ⟨Evtype.read, 5, 1⟩)], []⟩, [], 0, []⟩

/-- Witness for C3: a timed trampoline on a hub state that already holds a
listener for (READ, 5). -/
theorem c3_witness :
    (lookupFd (stDup.registry.bucket Evtype.read) 5).isSome = true ∧
    TimersWF stDup ∧
    ((∃ msg, (trampoline stDup 2 5 Evtype.read (some 3) Exc.guvTimeout
        (SwitchOutcome.ret 0)).1 = Except.error (Exc.runtimeError msg)) ∧
     (trampoline stDup 2 5 Evtype.read (some 3) Exc.guvTimeout
        (SwitchOutcome.ret 0)).2.registry = stDup.registry ∧
     ∀ t ∈ (trampoline stDup 2 5 Evtype.read (some 3) Exc.guvTimeout
        (SwitchOutcome.ret 0)).2.timers,
       stDup.nextTimerId ≤ t.id → t.cancelled = true) :=
  ⟨by decide, by decide,
   c3_trampoline_duplicate stDup 2 5 Evtype.read (some 3) Exc.guvTimeout
     (SwitchOutcome.ret 0) (by decide) (by decide)⟩

/-- C5 counterexample: the default of `timeout_exc` (trampoline.py line 7) is
the library's `Timeout` class, not the builtin `TimeoutError`; at a concrete
timed call with `timeout_exc` unspecified, the scheduled timer carries
`Timeout`, not `TimeoutError`. -/
theorem c5_counterexample :
    trampolineDefaultTimeoutExc ≠ Exc.builtinTimeoutError ∧
    ∃ t ∈ (trampolineDefault stEmpty 1 5 Evtype.read (some 1)
        (SwitchOutcome.ret 0)).2.timers,
      t.exc = Exc.guvTimeout ∧ t.exc ≠ Exc.builtinTimeoutError := by
  decide

/-- C5 amended: the default value of trampoline's `timeout_exc` parameter is
the library's own `Timeout` exception class (`guv.timeout.Timeout`); every
call with `timeout` set and `timeout_exc` left unspecified schedules a timer
that will inject that `Timeout` into the waiting greenlet on expiry. -/
theorem c5_default_is_guv_timeout (st : HubState) (gid fd : Nat) (e : Evtype)
    (s : Nat) (outcome : SwitchOutcome) :
    trampolineDefaultTimeoutExc = Exc.guvTimeout ∧
    ∃ t ∈ (trampolineDefault st gid fd e (some s) outcome).2.timers,
      t.id = st.nextTimerId ∧ t.exc = Exc.guvTimeout := by
  refine ⟨rfl, ?_⟩
  have htimers : (trampolineDefault st gid fd e (some s) outcome).2.timers =
      cancelTimer (st.timers ++ [⟨st.nextTimerId, Exc.guvTimeout, false⟩])
        st.nextTimerId := by
    unfold trampolineDefault trampolineDefaultTimeoutExc
    rw [trampoline_some, trampolineCore_timers]
    rfl
  rw [htimers]
  exact ⟨⟨st.nextTimerId, Exc.guvTimeout, true⟩,
         List.mem_map.mpr ⟨⟨st.nextTimerId, Exc.guvTimeout, false⟩,
           List.mem_append_right _ (List.mem_singleton.mpr rfl), by simp⟩,
         rfl, rfl⟩

/-- C4: if the hub's greenlet is dead when the hub is next needed,
`ensure_greenlet` creates a new live greenlet whose parent is the dead
greenlet's parent, reparents the dead greenlet to the new one, and points
`self.greenlet` at the new greenlet; if the hub's greenlet is not dead,
nothing changes. -/
theorem c4_ensure_greenlet (w : GreenletWorld) (hub : Hub)
    (hlt : hub.greenlet < w.nextId) :
    (w.dead hub.greenlet = true →
      (ensureGreenlet w hub).2.greenlet = w.nextId ∧
      (ensureGreenlet w hub).1.dead (ensureGreenlet w hub).2.greenlet = false ∧
      (ensureGreenlet w hub).1.parent (ensureGreenlet w hub).2.greenlet =
        w.parent hub.greenlet ∧
      (ensureGreenlet w hub).1.parent hub.greenlet =
        some (ensureGreenlet w hub).2.greenlet) ∧
    (w.dead hub.greenlet = false → ensureGreenlet w hub = (w, hub)) := by
  constructor
  · intro hd
    have hne : hub.greenlet ≠ w.nextId := Nat.ne_of_lt hlt
    simp [ensureGreenlet, hd, hne]
  · intro hd
    simp [ensureGreenlet, hd]

def wDead : GreenletWorld := ⟨fun _ => none, fun g => g == 0, 1⟩

def wLive : GreenletWorld := ⟨fun _ => none, fun _ => false, 2⟩

def hub0 : Hub := ⟨0⟩

/-- Witness for C4: a dead hub greenlet is resurrected and reparented; a
live one is left alone. -/
theorem c4_witness :
    hub0.greenlet < wDead.nextId ∧
    ((ensureGreenlet wDead hub0).2.greenlet = wDead.nextId ∧
     (ensureGreenlet wDead hub0).1.dead (ensureGreenlet wDead hub0).2.greenlet = false ∧
     (ensureGreenlet wDead hub0).1.parent (ensureGreenlet wDead hub0).2.greenlet =
       wDead.parent hub0.greenlet ∧
     (ensureGreenlet wDead hub0).1.parent hub0.greenlet =
       some (ensureGreenlet wDead hub0).2.greenlet) ∧
    ensureGreenlet wLive hub0 = (wLive, hub0) :=
  ⟨by decide,
   (c4_ensure_greenlet wDead hub0 (by decide)).1 (by decide),
   (c4_ensure_greenlet wLive hub0 (by decide)).2 (by decide)⟩

theorem hubSwitch_ok_of_ne (w : GreenletWorld) (hub : Hub) (cur : Nat)
    (hne : cur ≠ hub.greenlet) :
    ∃ p, hubSwitch w hub cur = Except.ok p := by
  unfold hubSwitch
  rw [if_neg hne]
  exact ⟨_, rfl⟩

/-- C6: `Hub.switch` requires the caller not to be the hub's own greenlet:
under that precondition the assertion never fails (the switch proceeds), and
if the hub greenlet itself calls switch, the assertion fails instead of
performing a switch. -/
theorem c6_switch_assert (w : GreenletWorld) (hub : Hub) (cur : Nat) :
    (cur ≠ hub.greenlet → ∃ p, hubSwitch w hub cur = Except.ok p) ∧
    (cur = hub.greenlet →
      hubSwitch w hub cur =
        Except.error "Cannot switch to the hub from the hub") := by
  refine ⟨fun hne => hubSwitch_ok_of_ne w hub cur hne, fun he => ?_⟩
  unfold hubSwitch
  rw [if_pos he]

/-- Witness for C6: a non-hub caller switches successfully; the hub greenlet
calling switch hits the assertion. -/
theorem c6_witness :
    (∃ p, hubSwitch wLive hub0 1 = Except.ok p) ∧
    hubSwitch wLive hub0 0 =
      Except.error "Cannot switch to the hub from the hub" :=
  ⟨(c6_switch_assert wLive hub0 1).1 (by decide),
   (c6_switch_assert wLive hub0 0).2 rfl⟩

/-- C7: `gyield()` from a non-hub greenlet appends the caller's resume
continuation to the hub's immediate-dispatch queue via `schedule_call_now`
— behind everything already queued for the next loop iteration — and then
switches into the hub. -/
theorem c7_gyield (w : GreenletWorld) (hub : Hub) (st : HubState) (cur : Nat)
    (hne : cur ≠ hub.greenlet) :
    (gyield w hub st cur).1.immediateQueue = st.immediateQueue ++ [cur] ∧
    ∃ p, (gyield w hub st cur).2 = Except.ok p :=
  ⟨rfl, hubSwitch_ok_of_ne w hub cur hne⟩

/-- Witness for C7 on an empty hub state. -/
theorem c7_witness :
    (gyield wLive hub0 stEmpty 1).1.immediateQueue = stEmpty.immediateQueue ++ [1] ∧
    ∃ p, (gyield wLive hub0 stEmpty 1).2 = Except.ok p :=
  c7_gyield wLive hub0 stEmpty 1 (by decide)

/-- C10: after a non-hub greenlet completes `Hub.switch` — when the
(possibly resurrected) hub greenlet's parent is not the caller and
reparenting creates no parent cycle — the caller's parent is the hub
greenlet. -/
theorem c10_reparent_on_switch (w : GreenletWorld) (hub : Hub) (cur : Nat)
    (hne : cur ≠ hub.greenlet)
    (hpar : (ensureGreenlet w hub).1.parent (ensureGreenlet w hub).2.greenlet ≠ some cur)
    (hcyc : wouldCycle (ensureGreenlet w hub).1 cur (ensureGreenlet w hub).2.greenlet = false) :
    hubSwitch w hub cur =
      Except.ok
        (setParent (ensureGreenlet w hub).1 cur (ensureGreenlet w hub).2.greenlet,
         (ensureGreenlet w hub).2) ∧
    (setParent (ensureGreenlet w hub).1 cur
        (ensureGreenlet w hub).2.greenlet).parent cur =
      some (ensureGreenlet w hub).2.greenlet := by
  constructor
  · simp only [hubSwitch]
    rw [if_neg hne, if_neg hpar, if_neg (by simp [hcyc])]
  · simp [setParent]

/-- Witness for C10: a fresh non-hub greenlet is reparented to the hub
greenlet by switch. -/
theorem c10_witness :
    hubSwitch wLive hub0 1 =
      Except.ok
        (setParent (ensureGreenlet wLive hub0).1 1 (ensureGreenlet wLive hub0).2.greenlet,
         (ensureGreenlet wLive hub0).2) ∧
    (setParent (ensureGreenlet wLive hub0).1 1
        (ensureGreenlet wLive hub0).2.greenlet).parent 1 =
      some (ensureGreenlet wLive hub0).2.greenlet :=
  c10_reparent_on_switch wLive hub0 1 (by decide) (by decide) (by decide)

end Guv
